import Mathlib

/-!
Verification of `go-controller/pkg/ovn/base_network_controller.go`.

Shallow embedding: the functions of `BaseNetworkController` are translated
to pure Lean functions.  External state (the OVN northbound database, the
namespace registry, channels/timers) is passed explicitly.  Collaborators
living outside the given source (libovsdbops primitives, the load-balancer
cache, IP/MAC arithmetic helpers from `util`) are either modelled from the
spec (clearly marked) or abstracted as function parameters.
-/

namespace OvnKube

/-- Model of `net.IPNet`: the address-family flag plus an abstract base
address identifier.  IP arithmetic helpers (`util.GetNodeGatewayIfAddr`,
`util.IPAddrToHWAddr`, ...) are external to the given source, so functions
of a subnet (such as the derived MAC) are abstracted as parameters. -/
structure IPNet where
  isV6 : Bool
  addr : Nat
  deriving DecidableEq, Repr

/-- Model of `nbdb.LogicalRouter` restricted to the fields the given source
reads or writes: name, `ExternalIDs`, `Options` and the COPP reference. -/
structure LogicalRouter where
  name : String
  externalIDs : List (String × String)
  options : List (String × String)
  copp : Option String
  deriving DecidableEq, Repr

/-- Lookup in a string-keyed map modelled as an association list. -/
def lookupKV (m : List (String × String)) (k : String) : Option String :=
  (m.find? (fun p => p.1 == k)).map Prod.snd

/-- Model of `types.OVNClusterRouter`. -/
def OVNClusterRouter : String := "ovn_cluster_router"

/-- Model of `types.RouterToSwitchPrefix`. -/
def RouterToSwitchPrefix : String := "rtos-"

/-- The `nbdb.LogicalRouter` record built by `createOvnClusterRouter`
(lines 124-139): base record with `always_learn_from_arp_request=false`,
whose whole `Options` map is replaced by `mcast_relay=true` when multicast
support is enabled. -/
def buildOvnClusterRouter (multicastSupport : Bool) (defaultCOPPUUID : String) : LogicalRouter :=
  let logicalRouter : LogicalRouter :=
    { name := OVNClusterRouter
      externalIDs := [("k8s-cluster-router", "yes")]
      options := [("always_learn_from_arp_request", "false")]
      copp := some defaultCOPPUUID }
  if multicastSupport then
    { logicalRouter with options := [("mcast_relay", "true")] }
  else
    logicalRouter

/-- Modelled from the spec: `libovsdbops.CreateOrUpdateLogicalRouter` is
outside the given source; the spec gives the DB client create-or-update
primitives last-writer-wins idempotent semantics per entity.  Returns the
new stored state and whether an effective change was made. -/
def CreateOrUpdateLogicalRouter (r : LogicalRouter) (db : Option LogicalRouter) :
    Option LogicalRouter × Bool :=
  if db = some r then (db, false) else (some r, true)

/-- Model of `createOvnClusterRouter` (lines 116-148): builds the router
record and performs the create-or-update against the stored DB state.
Returns (record built, stored state after, whether an effective change
was made). -/
def createOvnClusterRouter (multicastSupport : Bool) (copp : String)
    (db : Option LogicalRouter) : LogicalRouter × Option LogicalRouter × Bool :=
  let r := buildOvnClusterRouter multicastSupport copp
  let res := CreateOrUpdateLogicalRouter r db
  (r, res.1, res.2)

/-- Model of `namespaceInfo` restricted to the field the analysed paths
read: the owned address set (an abstract identity, `none` when the
namespace owns no address set). -/
structure NamespaceInfo where
  addressSet : Option Nat
  deriving DecidableEq, Repr

/-- Model of the deferred address-set destruction goroutine body spawned by
`deleteNamespaceLocked` (lines 540-561).  `shutdownFirst` says whether
`stopChan` fired before the 20-second timer; `recheck` is the result of the
`getNamespaceLocked` re-check performed after the delay.  Returns the number
of `Destroy` calls made on the original address set. -/
def deferredDestroyCount (shutdownFirst : Bool) (recheck : Option NamespaceInfo) : Nat :=
  if shutdownFirst then 0
  else
    match recheck with
    | some nsInfo => if nsInfo.addressSet.isSome then 0 else 1
    | none => 1

/-- Model of `getNamespaceLocked` (lines 481-509) as a function of the two
registry snapshots taken under `namespacesMutex`: `snap1` at lines 486-488
(initial read) and `snap2` at lines 502-507 (re-check after acquiring the
entry lock).  Entries are abstract identities (Go pointer identity). -/
def getNamespaceLocked (snap1 snap2 : String → Option Nat) (ns : String) : Option Nat :=
  match snap1 ns with
  | none => none
  | some nsInfo => if snap2 ns = some nsInfo then some nsInfo else none

/-- Registry effect of a completed `deleteNamespaceLocked` (line 563): the
entry for `ns` is removed from the registry map. -/
def deleteNamespaceRegistry (reg : String → Option Nat) (ns : String) : String → Option Nat :=
  fun n => if n = ns then none else reg n

/-- C7: createOvnClusterRouter is idempotent: for any fixed multicast
configuration, calling it twice constructs the identical LogicalRouter
record both times and the second create-or-update makes no additional
effective change to the stored router. -/
theorem createOvnClusterRouter_idempotent (m : Bool) (copp : String)
    (db : Option LogicalRouter) :
    (createOvnClusterRouter m copp (createOvnClusterRouter m copp db).2.1).1
        = (createOvnClusterRouter m copp db).1 ∧
    (createOvnClusterRouter m copp (createOvnClusterRouter m copp db).2.1).2.1
        = (createOvnClusterRouter m copp db).2.1 ∧
    (createOvnClusterRouter m copp (createOvnClusterRouter m copp db).2.1).2.2 = false := by
  refine ⟨rfl, ?_, ?_⟩ <;>
    · simp only [createOvnClusterRouter, CreateOrUpdateLogicalRouter]
      by_cases h : db = some (buildOvnClusterRouter m copp) <;> simp [h]

/-- C9: when multicast support is enabled, createOvnClusterRouter replaces
the router's entire options map so that it contains only
`mcast_relay="true"`; the `always_learn_from_arp_request="false"` option
set in the non-multicast record is absent. -/
theorem createOvnClusterRouter_multicast_options (copp : String) (db : Option LogicalRouter) :
    (createOvnClusterRouter true copp db).1.options = [("mcast_relay", "true")] ∧
    lookupKV (createOvnClusterRouter true copp db).1.options "always_learn_from_arp_request"
        = none ∧
    lookupKV (createOvnClusterRouter false copp db).1.options "always_learn_from_arp_request"
        = some "false" :=
  ⟨rfl, rfl, rfl⟩

/-- C3: the deferred destruction task never invokes Destroy when the
shutdown signal fires before the delay or when, at re-check time, a
namespace of the same name exists again with its own address set; in every
other case it invokes Destroy exactly once. -/
theorem deferredDestroyCount_spec (shutdownFirst : Bool) (recheck : Option NamespaceInfo) :
    ((shutdownFirst = true ∨ ∃ nsInfo a, recheck = some nsInfo ∧ nsInfo.addressSet = some a) →
        deferredDestroyCount shutdownFirst recheck = 0) ∧
    (shutdownFirst = false →
      (∀ nsInfo, recheck = some nsInfo → nsInfo.addressSet = none) →
        deferredDestroyCount shutdownFirst recheck = 1) := by
  constructor
  · rintro (h | ⟨nsInfo, a, hr, ha⟩)
    · simp [deferredDestroyCount, h]
    · subst hr
      simp [deferredDestroyCount, ha]
  · intro hs hn
    cases hr : recheck with
    | none => simp [deferredDestroyCount, hs]
    | some nsInfo =>
      have := hn nsInfo hr
      simp [deferredDestroyCount, hs, this]

/-- Witness for C3's theorem at concrete inputs: a shutdown-first run and a
recreated-with-address-set run destroy nothing; a run with no recreation
destroys exactly once. -/
theorem deferredDestroyCount_spec_witness :
    deferredDestroyCount true none = 0 ∧
    deferredDestroyCount false (some ⟨some 7⟩) = 0 ∧
    deferredDestroyCount false none = 1 :=
  ⟨(deferredDestroyCount_spec true none).1 (Or.inl rfl),
   (deferredDestroyCount_spec false (some ⟨some 7⟩)).1
     (Or.inr ⟨⟨some 7⟩, 7, rfl, rfl⟩),
   (deferredDestroyCount_spec false none).2 rfl (by intro nsInfo h; cases h)⟩

/-- C5: the lookup re-checks under the registry lock that the entry it
locked is still the current registry entry for the name; if the entry was
removed or replaced it returns not-found, and a lookup whose re-check runs
after a completed delete never returns the stale entry. -/
theorem getNamespaceLocked_no_stale (snap1 snap2 : String → Option Nat) (ns : String) (e : Nat)
    (hdel : snap2 ns ≠ some e) :
    getNamespaceLocked snap1 snap2 ns ≠ some e ∧
    (∀ i, snap1 ns = some i → snap2 ns ≠ some i → getNamespaceLocked snap1 snap2 ns = none) ∧
    (∀ reg, getNamespaceLocked snap1 (deleteNamespaceRegistry reg ns) ns = none) := by
  refine ⟨?_, ?_, ?_⟩
  · intro hc
    unfold getNamespaceLocked at hc
    cases h1 : snap1 ns with
    | none => rw [h1] at hc; exact Option.noConfusion hc
    | some i =>
      rw [h1] at hc
      have hc' : (if snap2 ns = some i then some i else none) = some e := hc
      by_cases h2 : snap2 ns = some i
      · rw [if_pos h2] at hc'
        exact hdel (hc' ▸ h2)
      · rw [if_neg h2] at hc'
        exact Option.noConfusion hc'
  · intro i h1 h2
    unfold getNamespaceLocked
    rw [h1]
    simp [h2]
  · intro reg
    unfold getNamespaceLocked
    cases h1 : snap1 ns with
    | none => simp
    | some i => simp [deleteNamespaceRegistry]

/-- Witness for C5's theorem: a concrete lookup racing a completed delete
of entry 0 under name "a" returns not-found in all three senses. -/
theorem getNamespaceLocked_no_stale_witness :
    getNamespaceLocked (fun _ => some 0) (fun _ => none) "a" ≠ some 0 ∧
    (∀ i, (fun _ : String => some 0) "a" = some i → (fun _ : String => none) "a" ≠ some i →
      getNamespaceLocked (fun _ => some 0) (fun _ => none) "a" = none) ∧
    (∀ reg, getNamespaceLocked (fun _ => some 0)
        (deleteNamespaceRegistry reg "a") "a" = none) :=
  getNamespaceLocked_no_stale (fun _ => some 0) (fun _ => none) "a" 0 (by simp)

/-- Operations emitted by `deleteNodeLogicalNetwork`, in program order. -/
inductive NodeDelOp where
  | removeLBSwitch (switchName : String)
  | deleteSwitch (switchName : String)
  | deleteRouterPort (portName : String)
  deriving DecidableEq, Repr

/-- Model of the northbound DB state portions touched by
`deleteNodeLogicalNetwork`: existing switch names, router port names, and
the load-balancer cache's switch associations. -/
structure NBState where
  switches : List String
  routerPorts : List String
  lbSwitchAssoc : List String
  deriving DecidableEq, Repr

/-- Modelled from the spec: `ovnlb.LBCache.RemoveSwitch` is outside the
given source; the spec lists it as the LB-switch cache removal primitive,
idempotent (absent switch is not an error). -/
def lbCacheRemoveSwitch (st : NBState) (name : String) : NBState :=
  { st with lbSwitchAssoc := st.lbSwitchAssoc.filter (fun s => s != name) }

/-- Modelled from the spec: `libovsdbops.DeleteLogicalSwitch` is outside
the given source; per the spec the DB delete primitives are idempotent and
an absent entity is not an error. -/
def DeleteLogicalSwitch (st : NBState) (name : String) : Except String NBState :=
  .ok { st with switches := st.switches.filter (fun s => s != name) }

/-- Modelled from the spec: `libovsdbops.DeleteLogicalRouterPorts` is
outside the given source; same idempotent delete semantics. -/
def DeleteLogicalRouterPorts (st : NBState) (portName : String) : Except String NBState :=
  .ok { st with routerPorts := st.routerPorts.filter (fun s => s != portName) }

/-- Model of `deleteNodeLogicalNetwork` (lines 364-390): removes the
switch from the LB cache, then deletes the logical switch, then deletes the
router-to-switch router port.  Returns the outcome together with the trace
of operations attempted, in program order. -/
def deleteNodeLogicalNetwork (st : NBState) (nodeName : String) :
    Except String NBState × List NodeDelOp :=
  let switchName := nodeName
  let st1 := lbCacheRemoveSwitch st switchName
  match DeleteLogicalSwitch st1 switchName with
  | .error e => (.error e, [.removeLBSwitch switchName, .deleteSwitch switchName])
  | .ok st2 =>
    match DeleteLogicalRouterPorts st2 (RouterToSwitchPrefix ++ switchName) with
    | .error e =>
      (.error e, [.removeLBSwitch switchName, .deleteSwitch switchName,
                  .deleteRouterPort (RouterToSwitchPrefix ++ switchName)])
    | .ok st3 =>
      (.ok st3, [.removeLBSwitch switchName, .deleteSwitch switchName,
                 .deleteRouterPort (RouterToSwitchPrefix ++ switchName)])

/-- Result of reading the node's host-subnet annot via
`util.ParseNodeHostSubnetAnnotation`: present and parsable, absent, or
present but unparsable. -/
inductive AnnotState where
  | set (subnets : List IPNet)
  | notSet
  | malformed
  deriving DecidableEq, Repr

/-- The hint list `existingSubnets` as computed at lines 308-312 of
`allocateNodeSubnets`: a parse error (absent or malformed annot) is only
logged and leaves the Go slice nil. -/
def existingSubnetsOf : AnnotState → List IPNet
  | .set subnets => subnets
  | .notSet => []
  | .malformed => []

/-- Model of `allocateNodeSubnets` (lines 306-328).  `alloc` abstracts
`HostSubnetAllocator.AllocateNodeSubnets`, returning (hostSubnets,
allocatedSubnets) or an error.  The returned list is the release calls
performed inside the function: the deferred release at lines 319-325 is
registered only after a successful allocation and fires only when the local
`err` is non-nil at function exit, and the sole exit after registration
(line 327) has `err = nil`, so no release happens inside this function. -/
def allocateNodeSubnets (alloc : List IPNet → Except String (List IPNet × List IPNet))
    (annot : AnnotState) : Except String (List IPNet) × List (List IPNet) :=
  let existingSubnets := existingSubnetsOf annot
  match alloc existingSubnets with
  | .error e => (.error e, [])
  | .ok hostAndAllocated => (.ok hostAndAllocated.1, [])

/-- Body of the deferred release closure of `allocateNodeSubnets`
(lines 319-325): when the function-local `err` is non-nil at exit, release
is called once with exactly `allocatedSubnets`; otherwise nothing is
released. -/
def releaseOnExit (finalErr : Option String) (allocatedSubnets : List IPNet) :
    List (List IPNet) :=
  match finalErr with
  | some _ => [allocatedSubnets]
  | none => []

/-- C1: on a failing exit the deferred rollback releases exactly the newly
allocated subnets N — one release call whose argument set is N, disjoint
from the pre-existing hinted subnets H — and no execution path of
`allocateNodeSubnets` itself releases anything (its only exit after the
defer is registered carries a nil error), so pre-existing subnets are never
released. -/
theorem allocateNodeSubnets_rollback (H N : List IPNet) (finalErr : Option String)
    (hdisj : ∀ s ∈ N, s ∉ H) (hfail : finalErr ≠ none) :
    releaseOnExit finalErr N = [N] ∧
    (∀ R ∈ releaseOnExit finalErr N, R = N ∧ ∀ s ∈ R, s ∉ H) ∧
    releaseOnExit none N = [] ∧
    (∀ alloc annot, (allocateNodeSubnets alloc annot).2 = []) := by
  refine ⟨?_, ?_, rfl, ?_⟩
  · cases finalErr with
    | none => exact absurd rfl hfail
    | some e => rfl
  · intro R hR
    cases finalErr with
    | none => exact absurd rfl hfail
    | some e =>
      simp only [releaseOnExit, List.mem_singleton] at hR
      subst hR
      exact ⟨rfl, hdisj⟩
  · intro alloc annot
    cases h : alloc (existingSubnetsOf annot) with
    | error e => simp [allocateNodeSubnets, h]
    | ok p => simp [allocateNodeSubnets, h]

/-- Witness for C1's theorem: with H = one v4 subnet, N = a disjoint fresh
subnet and a failing exit, exactly N is released. -/
theorem allocateNodeSubnets_rollback_witness :
    releaseOnExit (some "boom") [⟨false, 2⟩] = [[⟨false, 2⟩]] ∧
    (∀ R ∈ releaseOnExit (some "boom") [⟨false, 2⟩],
      R = [⟨false, 2⟩] ∧ ∀ s ∈ R, s ∉ [(⟨false, 1⟩ : IPNet)]) ∧
    releaseOnExit none [⟨false, 2⟩] = [] ∧
    (∀ alloc annot, (allocateNodeSubnets alloc annot).2 = []) :=
  allocateNodeSubnets_rollback [⟨false, 1⟩] [⟨false, 2⟩] (some "boom")
    (by decide) (by simp)

/-- C6: deleteNodeLogicalNetwork performs LB-cache removal, then switch
deletion, then router-port deletion, in that order; and when none of the
node's entities exist every sub-step succeeds and the state is unchanged,
so deleting a never-created node's topology returns no error. -/
theorem deleteNodeLogicalNetwork_spec (st : NBState) (nodeName : String)
    (hsw : nodeName ∉ st.switches)
    (hport : (RouterToSwitchPrefix ++ nodeName) ∉ st.routerPorts)
    (hlb : nodeName ∉ st.lbSwitchAssoc) :
    (deleteNodeLogicalNetwork st nodeName).2 =
      [.removeLBSwitch nodeName, .deleteSwitch nodeName,
       .deleteRouterPort (RouterToSwitchPrefix ++ nodeName)] ∧
    (deleteNodeLogicalNetwork st nodeName).1 = .ok st := by
  have hfilter : ∀ (l : List String) (x : String), x ∉ l →
      l.filter (fun s => s != x) = l := by
    intro l x hx
    apply List.filter_eq_self.mpr
    intro a ha
    have : a ≠ x := fun h => hx (h ▸ ha)
    simpa using this
  constructor
  · unfold deleteNodeLogicalNetwork DeleteLogicalSwitch DeleteLogicalRouterPorts
    rfl
  · unfold deleteNodeLogicalNetwork DeleteLogicalSwitch DeleteLogicalRouterPorts
      lbCacheRemoveSwitch
    simp only
    rw [hfilter _ _ hlb, hfilter _ _ hsw, hfilter _ _ hport]

/-- Witness for C6's theorem: deleting the topology of node "n1" on an
empty DB state yields the ordered trace and leaves the state unchanged. -/
theorem deleteNodeLogicalNetwork_spec_witness :
    (deleteNodeLogicalNetwork ⟨[], [], []⟩ "n1").2 =
      [.removeLBSwitch "n1", .deleteSwitch "n1",
       .deleteRouterPort (RouterToSwitchPrefix ++ "n1")] ∧
    (deleteNodeLogicalNetwork ⟨[], [], []⟩ "n1").1 = .ok ⟨[], [], []⟩ :=
  deleteNodeLogicalNetwork_spec ⟨[], [], []⟩ "n1"
    (by simp) (by simp) (by simp)

/-- C8 counterexample: with a present-but-unparsable host-subnet annot
and an allocator that succeeds, `allocateNodeSubnets` returns the fresh
allocation successfully instead of returning the parse error the claim
requires. -/
theorem allocateNodeSubnets_malformed_counterexample :
    (allocateNodeSubnets (fun _ => .ok ([⟨false, 9⟩], [⟨false, 9⟩])) .malformed).1
      = .ok [⟨false, 9⟩] := rfl

/-- C8 amended: a present-but-unparsable host-subnet annot is logged and
ignored by `allocateNodeSubnets`: the call proceeds exactly as if the annot
were absent (fresh allocation with no hints), and an error is returned only
when the allocator itself fails. -/
theorem allocateNodeSubnets_malformed_falls_back
    (alloc : List IPNet → Except String (List IPNet × List IPNet)) :
    allocateNodeSubnets alloc .malformed = allocateNodeSubnets alloc .notSet ∧
    (∀ e, (allocateNodeSubnets alloc .malformed).1 = .error e → alloc [] = .error e) := by
  refine ⟨rfl, ?_⟩
  intro e he
  cases h : alloc [] with
  | error e2 =>
    simp only [allocateNodeSubnets, existingSubnetsOf, h] at he
    cases he
    rfl
  | ok p => simp [allocateNodeSubnets, existingSubnetsOf, h] at he

/-- Witness for C8's amended theorem at a concrete failing allocator. -/
theorem allocateNodeSubnets_malformed_falls_back_witness :
    allocateNodeSubnets (fun _ => .error "pool exhausted") .malformed
      = allocateNodeSubnets (fun _ => .error "pool exhausted") .notSet ∧
    (fun _ : List IPNet =>
        (.error "pool exhausted" : Except String (List IPNet × List IPNet))) []
      = .error "pool exhausted" :=
  ⟨(allocateNodeSubnets_malformed_falls_back (fun _ => .error "pool exhausted")).1,
   (allocateNodeSubnets_malformed_falls_back (fun _ => .error "pool exhausted")).2
     "pool exhausted" rfl⟩

/-- MAC-selection loop of `syncNodeClusterRouterPort` (lines 170-177): the
loop assigns `nodeLRPMAC` from each subnet's gateway in turn and breaks at
the first non-IPv6 subnet.  `macOf` abstracts the external helper
composition `util.IPAddrToHWAddr(util.GetNodeGatewayIfAddr(subnet).IP)`. -/
def syncNodeLRPMACsel (macOf : IPNet → Nat) : List IPNet → Option Nat
  | [] => none
  | s :: rest =>
    if s.isV6 = false then some (macOf s)
    else
      match syncNodeLRPMACsel macOf rest with
      | none => some (macOf s)
      | some m => some m

/-- MAC-selection loop of `createNodeLogicalSwitch` (lines 212-220), written
identically to the one in `syncNodeClusterRouterPort`. -/
def switchNodeLRPMACsel (macOf : IPNet → Nat) : List IPNet → Option Nat
  | [] => none
  | s :: rest =>
    if s.isV6 = false then some (macOf s)
    else
      match switchNodeLRPMACsel macOf rest with
      | none => some (macOf s)
      | some m => some m

theorem switchNodeLRPMACsel_eq_sync (macOf : IPNet → Nat) (subnets : List IPNet) :
    switchNodeLRPMACsel macOf subnets = syncNodeLRPMACsel macOf subnets := by
  induction subnets with
  | nil => rfl
  | cons s rest ih => rw [switchNodeLRPMACsel, syncNodeLRPMACsel, ih]

theorem syncNodeLRPMACsel_isSome (macOf : IPNet → Nat) (s : IPNet) (rest : List IPNet) :
    (syncNodeLRPMACsel macOf (s :: rest)).isSome = true := by
  rw [syncNodeLRPMACsel]
  by_cases h : s.isV6 = false
  · simp [h]
  · cases hr : syncNodeLRPMACsel macOf rest <;> simp [h, hr]

theorem syncNodeLRPMACsel_first_v4 (macOf : IPNet → Nat) (subnets : List IPNet) (s : IPNet)
    (h : subnets.find? (fun t => !t.isV6) = some s) :
    syncNodeLRPMACsel macOf subnets = some (macOf s) := by
  induction subnets with
  | nil => simp [List.find?] at h
  | cons a rest ih =>
    rw [syncNodeLRPMACsel]
    by_cases ha : a.isV6 = false
    · have hpa : (!a.isV6) = true := by simp [ha]
      simp only [List.find?, hpa] at h
      have has : a = s := by injection h
      subst has
      rw [if_pos ha]
    · have ha' : a.isV6 = true := by
        cases hb : a.isV6
        · exact absurd hb ha
        · rfl
      have hpa : (!a.isV6) = false := by simp [ha']
      simp only [List.find?, hpa] at h
      rw [if_neg ha, ih h]

theorem syncNodeLRPMACsel_all_v6 (macOf : IPNet → Nat) (subnets : List IPNet)
    (hne : subnets ≠ []) (h : ∀ s ∈ subnets, s.isV6 = true) :
    syncNodeLRPMACsel macOf subnets = subnets.getLast?.map macOf := by
  induction subnets with
  | nil => exact absurd rfl hne
  | cons a rest ih =>
    rw [syncNodeLRPMACsel]
    have ha : a.isV6 = true := h a (by simp)
    rw [if_neg (by simp [ha])]
    cases rest with
    | nil => simp [syncNodeLRPMACsel]
    | cons b rest2 =>
      have hr := ih (by simp) (fun s hs => h s (by simp [hs]))
      rw [hr, List.getLast?_cons_cons]
      cases hgl : (b :: rest2).getLast? with
      | none => simp at hgl
      | some x => simp

/-- C4 counterexample: for the IPv6-only subnet list [s0, s1] the code
derives the router-port MAC from the last IPv6 subnet's gateway (s1), not
from the first IPv6 subnet's gateway (s0) as the claim states. -/
theorem syncNodeLRPMACsel_counterexample :
    syncNodeLRPMACsel IPNet.addr [⟨true, 0⟩, ⟨true, 1⟩] = some (IPNet.addr ⟨true, 1⟩) ∧
    syncNodeLRPMACsel IPNet.addr [⟨true, 0⟩, ⟨true, 1⟩] ≠ some (IPNet.addr ⟨true, 0⟩) := by
  decide

/-- C4 amended: for every non-empty host-subnet list the logical router
port MAC (and the identically derived MAC in createNodeLogicalSwitch) is
derived from the gateway address of the first IPv4 subnet in the list; if
the list contains no IPv4 subnet, it is derived from the gateway address of
the LAST IPv6 subnet (not the first). -/
theorem lrpMACsel_first_v4_else_last_v6 (macOf : IPNet → Nat) (subnets : List IPNet) :
    (∀ s, subnets.find? (fun t => !t.isV6) = some s →
        syncNodeLRPMACsel macOf subnets = some (macOf s) ∧
        switchNodeLRPMACsel macOf subnets = some (macOf s)) ∧
    (subnets ≠ [] → (∀ s ∈ subnets, s.isV6 = true) →
        syncNodeLRPMACsel macOf subnets = subnets.getLast?.map macOf ∧
        switchNodeLRPMACsel macOf subnets = subnets.getLast?.map macOf) := by
  constructor
  · intro s h
    have h1 := syncNodeLRPMACsel_first_v4 macOf subnets s h
    exact ⟨h1, by rw [switchNodeLRPMACsel_eq_sync, h1]⟩
  · intro hne hv6
    have h1 := syncNodeLRPMACsel_all_v6 macOf subnets hne hv6
    exact ⟨h1, by rw [switchNodeLRPMACsel_eq_sync, h1]⟩

/-- Witness for C4's amended theorem: a list whose first IPv4 subnet is in
second position yields that subnet's MAC, and an IPv6-only list yields the
last subnet's MAC, in both derivations. -/
theorem lrpMACsel_first_v4_else_last_v6_witness :
    (syncNodeLRPMACsel IPNet.addr [⟨true, 3⟩, ⟨false, 5⟩] = some (IPNet.addr ⟨false, 5⟩) ∧
     switchNodeLRPMACsel IPNet.addr [⟨true, 3⟩, ⟨false, 5⟩] = some (IPNet.addr ⟨false, 5⟩)) ∧
    (syncNodeLRPMACsel IPNet.addr [⟨true, 0⟩, ⟨true, 1⟩]
        = ([(⟨true, 0⟩ : IPNet), ⟨true, 1⟩].getLast?).map IPNet.addr ∧
     switchNodeLRPMACsel IPNet.addr [⟨true, 0⟩, ⟨true, 1⟩]
        = ([(⟨true, 0⟩ : IPNet), ⟨true, 1⟩].getLast?).map IPNet.addr) :=
  ⟨(lrpMACsel_first_v4_else_last_v6 IPNet.addr [⟨true, 3⟩, ⟨false, 5⟩]).1
      ⟨false, 5⟩ (by decide),
   (lrpMACsel_first_v4_else_last_v6 IPNet.addr [⟨true, 0⟩, ⟨true, 1⟩]).2
      (by decide) (by decide)⟩

/-- The (v4Gateway, v6Gateway) pair computed by the subnet loop of
`createNodeLogicalSwitch` (lines 226-247): each iteration stores the
subnet's gateway in its family's slot, so each slot ends up holding the
last subnet of that family. -/
def switchGateways (subnets : List IPNet) : Option IPNet × Option IPNet :=
  subnets.foldl (fun p s => if s.isV6 then (p.1, some s) else (some s, p.2)) (none, none)

/-- The `mcast_eth_src` value written by `createNodeLogicalSwitch` when
multicast support is enabled (lines 254-271): set to the derived
`nodeLRPMAC` when a gateway of either family is known, absent otherwise
(querier disabled). -/
def switchMcastEthSrc (macOf : IPNet → Nat) (subnets : List IPNet) : Option Nat :=
  let gws := switchGateways subnets
  if gws.1.isSome || gws.2.isSome then switchNodeLRPMACsel macOf subnets else none

theorem switchGateways_isSome (subnets : List IPNet) (hne : subnets ≠ []) :
    ((switchGateways subnets).1.isSome || (switchGateways subnets).2.isSome) = true := by
  have aux : ∀ (l : List IPNet) (p : Option IPNet × Option IPNet),
      (p.1.isSome || p.2.isSome) = true →
      ((l.foldl (fun q s => if s.isV6 then (q.1, some s) else (some s, q.2)) p).1.isSome ||
       (l.foldl (fun q s => if s.isV6 then (q.1, some s) else (some s, q.2)) p).2.isSome)
         = true := by
    intro l
    induction l with
    | nil => intro p hp; simpa using hp
    | cons a l2 ih =>
      intro p hp
      rw [List.foldl_cons]
      apply ih
      by_cases ha : a.isV6 <;> simp [ha]
  cases subnets with
  | nil => exact absurd rfl hne
  | cons a rest =>
    unfold switchGateways
    rw [List.foldl_cons]
    apply aux
    by_cases ha : a.isV6 <;> simp [ha]

/-- C10: for every non-empty host-subnet list the mcast_eth_src MAC written
by createNodeLogicalSwitch under multicast equals the MAC that
syncNodeClusterRouterPort assigns to the node's logical router port for the
same list: the two independent derivations compute the same function (and
the value is present, since a non-empty list always yields a gateway). -/
theorem switchMcastEthSrc_eq_syncNodeLRPMACsel (macOf : IPNet → Nat) (subnets : List IPNet)
    (hne : subnets ≠ []) :
    switchMcastEthSrc macOf subnets = syncNodeLRPMACsel macOf subnets ∧
    (switchMcastEthSrc macOf subnets).isSome = true := by
  have hg := switchGateways_isSome subnets hne
  have he := switchNodeLRPMACsel_eq_sync macOf subnets
  have hmain : switchMcastEthSrc macOf subnets = syncNodeLRPMACsel macOf subnets := by
    unfold switchMcastEthSrc
    simp only [hg]
    simpa using he
  refine ⟨hmain, ?_⟩
  rw [hmain]
  cases subnets with
  | nil => exact absurd rfl hne
  | cons s rest => exact syncNodeLRPMACsel_isSome macOf s rest

/-- Witness for C10's theorem at a concrete one-subnet list. -/
theorem switchMcastEthSrc_eq_syncNodeLRPMACsel_witness :
    switchMcastEthSrc IPNet.addr [⟨false, 7⟩] = syncNodeLRPMACsel IPNet.addr [⟨false, 7⟩] ∧
    (switchMcastEthSrc IPNet.addr [⟨false, 7⟩]).isSome = true :=
  switchMcastEthSrc_eq_syncNodeLRPMACsel IPNet.addr [⟨false, 7⟩] (by decide)

/-- Value of a decimal digit character, as accepted by Go's
`strconv.Atoi`: characters '0'..'9' (code points 48..57). -/
def digitVal (c : Char) : Option Nat :=
  if 48 ≤ c.toNat ∧ c.toNat ≤ 57 then some (c.toNat - 48) else none

/-- Digit-accumulation loop of Go's `strconv.ParseInt`/`Atoi`: folds the
decimal digits left to right, failing on any non-digit character. -/
def parseDigits : Nat → List Char → Option Nat
  | acc, [] => some acc
  | acc, c :: cs =>
    match digitVal c with
    | some d => parseDigits (acc * 10 + d) cs
    | none => none

/-- Go `int` (64-bit) range check performed by `strconv.Atoi`: out-of-range
values are an error; the bounds are -2^63 and 2^63. -/
def rangeCheckInt (i : Int) : Option Int :=
  if -9223372036854775808 ≤ i ∧ i < 9223372036854775808 then some i else none

/-- Model of Go's `strconv.Atoi` on a character list: an optional single
sign followed by one or more decimal digits; anything else (including the
empty string) is an error (`none`). -/
def goAtoiChars : List Char → Option Int
  | [] => none
  | c :: cs =>
    if c = '-' then
      if cs = [] then none
      else (parseDigits 0 cs).bind (fun n => rangeCheckInt (-(n : Int)))
    else if c = '+' then
      if cs = [] then none
      else (parseDigits 0 cs).bind (fun n => rangeCheckInt ((n : Int)))
    else (parseDigits 0 (c :: cs)).bind (fun n => rangeCheckInt ((n : Int)))

/-- Model of Go's `strconv.Atoi` (used at line 472). -/
def goAtoi (s : String) : Option Int := goAtoiChars s.data

/-- Model of `math.MaxInt32`. -/
def MaxInt32 : Int := 2147483647

/-- Model of `determineOVNTopoVersionFromOVN` (lines 456-477): the stored
cluster router (or its absence) determines the detected topology version.
The transient-DB-error path at lines 460-462 (propagated unchanged) is not
modelled; `clusterRouter` is the found/not-found outcome of
`libovsdbops.GetLogicalRouter`. -/
def determineOVNTopoVersionFromOVN (clusterRouter : Option LogicalRouter) :
    Except String Int :=
  match clusterRouter with
  | none => .ok MaxInt32
  | some lr =>
    match lookupKV lr.externalIDs "k8s-ovn-topo-version" with
    | none => .ok 0
    | some v =>
      match goAtoi v with
      | none => .error "invalid OVN topology version string for the cluster"
      | some ver => .ok ver

/-- Decimal digits of `n`, least significant first, computed with explicit
fuel so that the definition is structurally recursive. -/
def digitsRevFuel : Nat → Nat → List Nat
  | 0, _ => []
  | _ + 1, 0 => []
  | fuel + 1, n + 1 => ((n + 1) % 10) :: digitsRevFuel fuel ((n + 1) / 10)

/-- Decimal digits of `n`, least significant first. -/
def decimalDigitsRev (n : Nat) : List Nat := digitsRevFuel n n

/-- Character of a decimal digit. -/
def digitChar10 (d : Nat) : Char := Char.ofNat (48 + d)

/-- The decimal string of a natural number, most significant digit first --
the meaning of "the decimal string of integer n" in the claim. -/
def decimalString (n : Nat) : String :=
  if n = 0 then "0" else String.mk ((decimalDigitsRev n).reverse.map digitChar10)

theorem digitsRevFuel_eq_digits (fuel : Nat) : ∀ n : Nat, n ≤ fuel →
    digitsRevFuel fuel n = Nat.digits 10 n := by
  induction fuel with
  | zero =>
    intro n hn
    interval_cases n
    simp [digitsRevFuel]
  | succ f ih =>
    intro n hn
    cases n with
    | zero => simp [digitsRevFuel]
    | succ m =>
      rw [digitsRevFuel]
      rw [Nat.digits_def' (by norm_num : (1 : ℕ) < 10) (Nat.succ_pos m)]
      congr 1
      apply ih
      have hdiv : (m + 1) / 10 < m + 1 := Nat.div_lt_self (Nat.succ_pos m) (by norm_num)
      omega

theorem decimalDigitsRev_eq_digits (n : Nat) : decimalDigitsRev n = Nat.digits 10 n :=
  digitsRevFuel_eq_digits n n le_rfl

theorem digitVal_digitChar10 (d : Nat) (hd : d < 10) :
    digitVal (digitChar10 d) = some d := by
  interval_cases d <;> decide

theorem digitChar10_ne_sign (d : Nat) (hd : d < 10) :
    digitChar10 d ≠ '-' ∧ digitChar10 d ≠ '+' := by
  interval_cases d <;> exact ⟨by decide, by decide⟩

theorem parseDigits_map (ds : List Nat) : ∀ acc : Nat, (∀ d ∈ ds, d < 10) →
    parseDigits acc (ds.map digitChar10) =
      some (ds.foldl (fun a d => a * 10 + d) acc) := by
  induction ds with
  | nil => intro acc h; rfl
  | cons d ds ih =>
    intro acc h
    have hd : d < 10 := h d (by simp)
    rw [List.map_cons, parseDigits, digitVal_digitChar10 d hd, List.foldl_cons]
    exact ih (acc * 10 + d) (fun x hx => h x (by simp [hx]))

theorem foldl_reverse_ofDigits (L : List Nat) :
    L.reverse.foldl (fun a d => a * 10 + d) 0 = Nat.ofDigits 10 L := by
  induction L with
  | nil => rfl
  | cons d L ih =>
    rw [List.reverse_cons, List.foldl_append, ih, Nat.ofDigits_cons]
    simp only [List.foldl_cons, List.foldl_nil]
    omega

theorem goAtoi_decimalString (n : Nat) (h : (n : Int) < 9223372036854775808) :
    goAtoi (decimalString n) = some (n : Int) := by
  by_cases h0 : n = 0
  · subst h0
    decide
  · have h10 : (1 : ℕ) < 10 := by norm_num
    have hne : Nat.digits 10 n ≠ [] := Nat.digits_ne_nil_iff_ne_zero.mpr h0
    have hrevne : (Nat.digits 10 n).reverse ≠ [] := by simpa using hne
    obtain ⟨d, ds, hds⟩ := List.exists_cons_of_ne_nil hrevne
    have hlt : ∀ x ∈ (Nat.digits 10 n).reverse, x < 10 := by
      intro x hx
      exact Nat.digits_lt_base h10 (List.mem_reverse.mp hx)
    have hdlt : d < 10 := hlt d (by rw [hds]; simp)
    have hstr : (decimalString n).data = digitChar10 d :: ds.map digitChar10 := by
      unfold decimalString
      rw [if_neg h0]
      show ((decimalDigitsRev n).reverse.map digitChar10) = _
      rw [decimalDigitsRev_eq_digits, hds, List.map_cons]
    unfold goAtoi
    rw [hstr, goAtoiChars]
    have hsign := digitChar10_ne_sign d hdlt
    rw [if_neg hsign.1, if_neg hsign.2]
    have hparse : parseDigits 0 ((d :: ds).map digitChar10) =
        some ((d :: ds).foldl (fun a x => a * 10 + x) 0) := by
      apply parseDigits_map
      intro x hx
      exact hlt x (hds ▸ hx)
    rw [List.map_cons] at hparse
    rw [hparse]
    have hfold : (d :: ds).foldl (fun a x => a * 10 + x) 0 = n := by
      rw [← hds, foldl_reverse_ofDigits, Nat.ofDigits_digits]
    rw [hfold, Option.some_bind]
    unfold rangeCheckInt
    rw [if_pos ⟨by omega, h⟩]

/-- C2: determineOVNTopoVersionFromOVN returns the MaxInt32 sentinel when
no cluster router exists; 0 when the router exists but its external
metadata has no k8s-ovn-topo-version key; n when the stored value is the
decimal string of n; and an error, never a defaulted value, when the
stored value is not a parsable decimal integer such as "abc". -/
theorem determineOVNTopoVersionFromOVN_spec :
    determineOVNTopoVersionFromOVN none = .ok MaxInt32 ∧
    (∀ lr : LogicalRouter, lookupKV lr.externalIDs "k8s-ovn-topo-version" = none →
        determineOVNTopoVersionFromOVN (some lr) = .ok 0) ∧
    (∀ (lr : LogicalRouter) (n : Nat), (n : Int) < 9223372036854775808 →
        lookupKV lr.externalIDs "k8s-ovn-topo-version" = some (decimalString n) →
        determineOVNTopoVersionFromOVN (some lr) = .ok (n : Int)) ∧
    (∀ lr : LogicalRouter, lookupKV lr.externalIDs "k8s-ovn-topo-version" = some "abc" →
        determineOVNTopoVersionFromOVN (some lr)
          = .error "invalid OVN topology version string for the cluster") := by
  refine ⟨rfl, ?_, ?_, ?_⟩
  · intro lr h
    simp only [determineOVNTopoVersionFromOVN, h]
  · intro lr n hn h
    simp only [determineOVNTopoVersionFromOVN, h, goAtoi_decimalString n hn]
  · intro lr h
    have habc : goAtoi "abc" = none := by decide
    simp only [determineOVNTopoVersionFromOVN, h, habc]

/-- Witness for C2's theorem on the table's concrete routers: no version
key yields 0, value "3" yields 3, value "abc" yields the error. -/
theorem determineOVNTopoVersionFromOVN_spec_witness :
    determineOVNTopoVersionFromOVN
        (some ⟨OVNClusterRouter, [("k8s-cluster-router", "yes")], [], none⟩) = .ok 0 ∧
    determineOVNTopoVersionFromOVN
        (some ⟨OVNClusterRouter, [("k8s-ovn-topo-version", "3")], [], none⟩) = .ok 3 ∧
    determineOVNTopoVersionFromOVN
        (some ⟨OVNClusterRouter, [("k8s-ovn-topo-version", "abc")], [], none⟩)
      = .error "invalid OVN topology version string for the cluster" :=
  ⟨determineOVNTopoVersionFromOVN_spec.2.1 _ (by decide),
   determineOVNTopoVersionFromOVN_spec.2.2.1
     ⟨OVNClusterRouter, [("k8s-ovn-topo-version", "3")], [], none⟩ 3
     (by decide) (by decide),
   determineOVNTopoVersionFromOVN_spec.2.2.2 _ (by decide)⟩

end OvnKube
